import Mathlib

/-!
Verification of `src/embeddings.py` of the retrieval-system repository:
`EmbeddingModelSingleton` (the Encoder) and `CrossEncoderModelSingleton`
(the Relevance Scorer).

Shallow embedding conventions:
* the external HuggingFace tokenizer and model are abstract components:
  the tokenizer is a function `String → Nat → Except String τ` (input text
  and `max_length`; an exception is an `Except.error`), the model forward
  pass is `τ → Except String (ModelOutput α)`;
* a tensor is a nested list; `last_hidden_state` has layout
  batch × sequence × hidden;
* scalars are an arbitrary type `α` (the code never computes with the
  numbers, it only moves and reshapes them);
* `logger.error` emission is modelled by returning the list of emitted
  messages alongside the result.
-/

/-- Output of the model forward pass (`result` in `__call__`): the
`last_hidden_state` tensor, batch × sequence × hidden. -/
structure ModelOutput (α : Type) where
  last_hidden_state : List (List (List α))
deriving DecidableEq, Repr

/-- A loaded `AutoModel`: its current device, whether it is in training
mode, and its forward computation (which may raise). -/
structure PretrainedModel (τ α : Type) where
  device : String
  training : Bool
  forward : τ → Except String (ModelOutput α)

/-- `model.to(device)`: moves the model onto the given device. -/
def PretrainedModel.to (m : PretrainedModel τ α) (device : String) :
    PretrainedModel τ α :=
  { m with device := device }

/-- `model.eval()`: switches the model into inference (non-training) mode. -/
def PretrainedModel.eval (m : PretrainedModel τ α) : PretrainedModel τ α :=
  { m with training := false }

/-- The external HuggingFace hub: `AutoTokenizer.from_pretrained` and
`AutoModel.from_pretrained`, each taking a model identifier and an optional
cache directory (`none` = the library default location). A loaded tokenizer
is applied to an input text and a `max_length` bound. -/
structure HFHub (τ α : Type) where
  autoTokenizerFromPretrained : String → Option String → (String → Nat → Except String τ)
  autoModelFromPretrained : String → Option String → PretrainedModel τ α

/-- The `EmbeddingModelSingleton` instance state after `__init__`:
the four configuration attributes plus the loaded tokenizer and model.
(The Python attributes are `_model_id`, `_embedding_size`, `_device`,
`_max_input_length`, `_tokenizer`, `_model`; the read-only `@property`
accessors coincide with field access here.) -/
structure EmbeddingModelSingleton (τ α : Type) where
  model_id : String
  embedding_size : Nat
  max_input_length : Nat
  device : String
  tokenizer : String → Nat → Except String τ
  model : PretrainedModel τ α

/-- `EmbeddingModelSingleton.__init__`: stores the configuration, loads the
tokenizer as `AutoTokenizer.from_pretrained(model_id)` (no cache argument),
loads the model as `AutoModel.from_pretrained(model_id, cache_dir=...)`,
moves it `.to(device)` and calls `.eval()`. Default argument values come
from the `settings` module (outside `src/`) and are not modelled; callers
pass all arguments explicitly. -/
def EmbeddingModelSingleton.init (hub : HFHub τ α) (model_id : String)
    (embedding_size : Nat) (max_input_length : Nat) (device : String)
    (cache_dir : Option String) : EmbeddingModelSingleton τ α :=
  { model_id := model_id
    embedding_size := embedding_size
    max_input_length := max_input_length
    device := device
    tokenizer := hub.autoTokenizerFromPretrained model_id none
    model := ((hub.autoModelFromPretrained model_id cache_dir).to device).eval }

/-- The value returned by `__call__`: a Python list of scalars
(`to_list=True`) or a numpy array (`to_list=False`); the array is kept as
its rows (on the success path it has shape batch × hidden; the failure
value `np.array([])` has no elements and is `.arr []`). -/
inductive EncodeOutput (α : Type) where
  | list (xs : List α)
  | arr (rows : List (List α))
deriving DecidableEq, Repr

/-- The number of scalar elements in the output (a list's length, an
array's total size). -/
def EncodeOutput.size : EncodeOutput α → Nat
  | .list xs => xs.length
  | .arr rows => (rows.map List.length).sum

/-- The flat numeric content of the output, in order. -/
def EncodeOutput.content : EncodeOutput α → List α
  | .list xs => xs
  | .arr rows => rows.flatten

/-- `result.last_hidden_state[:, 0, :]`: for every batch row, the hidden
vector at token position 0. (numpy indexing requires a nonempty sequence
dimension; theorems about the value carry that hypothesis, and `headD []`
is never reached on an empty row in any claim.) -/
def firstTokenSlice (t : List (List (List α))) : List (List α) :=
  t.map (fun seq => seq.headD [])

/-- `.cpu().detach().numpy()`: detaches from the computation graph and
materializes in host memory; value-preserving. -/
def cpuDetachNumpy (rows : List (List α)) : List (List α) :=
  rows

/-- `EmbeddingModelSingleton.__call__(input_text, to_list)`, returning the
result together with the list of `logger.error` messages emitted (first the
`traceback.format_exc()` detail, modelled by the exception text, then the
human-readable message). The function is total: no exception escapes. -/
def EmbeddingModelSingleton.call (self : EmbeddingModelSingleton τ α)
    (input_text : String) (to_list : Bool) : EncodeOutput α × List String :=
  match self.tokenizer input_text self.max_input_length with
  | .error exc =>
      ((if to_list then .list [] else .arr []),
       [exc, "Error tokenizing the following input text: " ++ input_text])
  | .ok tokenized_text =>
    match self.model.forward tokenized_text with
    | .error exc =>
        ((if to_list then .list [] else .arr []),
         [exc, "Error generating embeddings for the following model_id: "
            ++ self.model_id ++ " and input text: " ++ input_text])
    | .ok result =>
      let embeddings := cpuDetachNumpy (firstTokenSlice result.last_hidden_state)
      ((if to_list then .list embeddings.flatten else .arr embeddings), [])

/-- State-threading view of `__call__`: the method body assigns to no
attribute of `self`, so its embedding returns the instance unchanged
alongside the output. -/
def EmbeddingModelSingleton.callS (self : EmbeddingModelSingleton τ α)
    (input_text : String) (to_list : Bool) :
    (EncodeOutput α × List String) × EmbeddingModelSingleton τ α :=
  (self.call input_text to_list, self)

/-- The external `sentence_transformers` `CrossEncoder`: its constructor
arguments and, per the library interface, an underlying pairwise scoring
computation applied to one (text_a, text_b) pair, which may raise. -/
structure CrossEncoder (α : Type) where
  model_name : String
  device : String
  scorePair : String → String → Except String α

/-- `CrossEncoder.predict(pairs)`: one score per input pair, in input
order; a failure on any pair raises out of the whole call (the library
offers no per-pair recovery). -/
def CrossEncoder.predict (m : CrossEncoder α) :
    List (String × String) → Except String (List α)
  | [] => .ok []
  | p :: ps => do
    let s ← m.scorePair p.1 p.2
    let rest ← m.predict ps
    return s :: rest

/-- `scores.tolist()`: value-preserving conversion of the returned numpy
array to a Python list. -/
def scoresToList (scores : List α) : List α :=
  scores

/-- The `CrossEncoderModelSingleton` instance state after `__init__`:
`_model_id`, `_device` and the loaded `_model`. -/
structure CrossEncoderModelSingleton (α : Type) where
  model_id : String
  device : String
  model : CrossEncoder α

/-- `CrossEncoderModelSingleton.__init__`: stores the configuration and
constructs `CrossEncoder(model_name=model_id, device=device)`; the loaded
pairwise computation comes from the hub for that model name. -/
def CrossEncoderModelSingleton.init (load : String → String → Except String α)
    (model_id : String) (device : String) : CrossEncoderModelSingleton α :=
  { model_id := model_id
    device := device
    model := { model_name := model_id, device := device, scorePair := load } }

/-- `CrossEncoderModelSingleton.__call__(pairs)`: runs
`self._model.predict(pairs)` and returns `scores.tolist()`. There is no
`try`/`except` in the body, so an exception raised by `predict` propagates
to the caller: the embedding sequences with `Except` bind. -/
def CrossEncoderModelSingleton.call (self : CrossEncoderModelSingleton α)
    (pairs : List (String × String)) : Except String (List α) := do
  let scores ← self.model.predict pairs
  return scoresToList scores

/-- Modelled from the spec: `SingletonMeta` lives in `src/base`, which is
not present under `src/`. Per the spec's lifecycle policy, each singleton
type holds at most one instance; a construction request returns the
existing instance unchanged when there is one (the new configuration is
discarded), and otherwise constructs, stores and returns a fresh instance
from the requested configuration. The state is the optional stored
instance; the result pairs the returned instance with the updated state. -/
def singletonCall (construct : C → S) (st : Option S) (cfg : C) :
    S × Option S :=
  match st with
  | some inst => (inst, some inst)
  | none => (construct cfg, some (construct cfg))

/-- Configuration record for `EmbeddingModelSingleton` construction
requests (the five `__init__` parameters). -/
structure EmbeddingConfig where
  model_id : String
  embedding_size : Nat
  max_input_length : Nat
  device : String
  cache_dir : Option String

/-- `EmbeddingModelSingleton.init` as a function of an `EmbeddingConfig`,
for use as the `construct` argument of the singleton lifecycle. -/
def embeddingConstruct (hub : HFHub τ α) (cfg : EmbeddingConfig) :
    EmbeddingModelSingleton τ α :=
  EmbeddingModelSingleton.init hub cfg.model_id cfg.embedding_size
    cfg.max_input_length cfg.device cfg.cache_dir

/-- Configuration record for `CrossEncoderModelSingleton` construction
requests (the two `__init__` parameters). -/
structure ScorerConfig where
  model_id : String
  device : String

/-- `CrossEncoderModelSingleton.init` as a function of a `ScorerConfig`. -/
def scorerConstruct (load : String → String → Except String α)
    (cfg : ScorerConfig) : CrossEncoderModelSingleton α :=
  CrossEncoderModelSingleton.init load cfg.model_id cfg.device

/-! Concrete fixtures: a toy hub, encoder instances and a scorer, used to
evaluate the theorems below at concrete inputs. The toy tokenizer raises on
the text "fail"; the toy forward pass raises on an empty token sequence and
otherwise yields a batch-1, sequence-2, hidden-3 tensor. -/

/-- A concrete forward-pass output: batch 1, sequence 2, hidden width 3. -/
def toyModelOutput : ModelOutput Int :=
  ⟨[[[1, 2, 3], [4, 5, 6]]]⟩

/-- A concrete hub over token sequences `List Nat` and scalars `Int`. -/
def toyHub : HFHub (List Nat) Int where
  autoTokenizerFromPretrained := fun _ _ => fun text maxLen =>
    if text = "fail" then .error "TokenizationException"
    else .ok (List.range (min text.length maxLen))
  autoModelFromPretrained := fun _ _ =>
    { device := "meta"
      training := true
      forward := fun tok =>
        if tok.length = 0 then .error "ForwardException" else .ok toyModelOutput }

/-- An encoder whose configured `embedding_size` (3) matches the toy
model's hidden width. -/
def toyEncoder : EmbeddingModelSingleton (List Nat) Int :=
  EmbeddingModelSingleton.init toyHub "toy-model" 3 8 "cpu" none

/-- An encoder whose configured `embedding_size` (5) does NOT match the toy
model's hidden width (3). -/
def mismatchEncoder : EmbeddingModelSingleton (List Nat) Int :=
  EmbeddingModelSingleton.init toyHub "toy-model" 5 8 "cpu" none

/-- A concrete scorer: raises on first text "boom", otherwise scores a pair
by the signed length difference of its texts. -/
def toyScorer : CrossEncoderModelSingleton Int :=
  CrossEncoderModelSingleton.init
    (fun a b =>
      if a = "boom" then .error "ScoringException"
      else .ok ((a.length : Int) - (b.length : Int)))
    "toy-cross-encoder" "cpu"

/-- C1: for every input text and every value of the `to_list` flag, if the
tokenizer or the model forward pass raises, `__call__` catches the
exception and returns the empty result matching the flag (`[]` when
`to_list`, the empty array otherwise) after emitting the two diagnostic
messages; the function is total over `EncodeOutput`, so the exception never
propagates to the caller. -/
theorem encode_failure_isolated (self : EmbeddingModelSingleton τ α)
    (input_text : String) (to_list : Bool) :
    (∀ exc, self.tokenizer input_text self.max_input_length = .error exc →
      (self.call input_text to_list).1 =
        (if to_list then .list [] else .arr []) ∧
      (self.call input_text to_list).1.size = 0 ∧
      (self.call input_text to_list).2 =
        [exc, "Error tokenizing the following input text: " ++ input_text]) ∧
    (∀ tok exc, self.tokenizer input_text self.max_input_length = .ok tok →
      self.model.forward tok = .error exc →
      (self.call input_text to_list).1 =
        (if to_list then .list [] else .arr []) ∧
      (self.call input_text to_list).1.size = 0 ∧
      (self.call input_text to_list).2 =
        [exc, "Error generating embeddings for the following model_id: "
          ++ self.model_id ++ " and input text: " ++ input_text]) := by
  constructor
  · intro exc h
    simp only [EmbeddingModelSingleton.call, h]
    cases to_list <;> simp [EncodeOutput.size]
  · intro tok exc htok hfwd
    simp only [EmbeddingModelSingleton.call, htok, hfwd]
    cases to_list <;> simp [EncodeOutput.size]

/-- C1 witness: the toy tokenizer raises on "fail"; the call returns the
empty list and the two diagnostics. -/
theorem encode_failure_isolated_witness :
    (toyEncoder.call "fail" true).1 = .list [] ∧
    (toyEncoder.call "fail" true).1.size = 0 ∧
    (toyEncoder.call "fail" true).2 =
      ["TokenizationException",
       "Error tokenizing the following input text: fail"] := by
  have h := (encode_failure_isolated toyEncoder "fail" true).1
    "TokenizationException" (by rfl)
  simpa using h

/-- C2: for every input text on which tokenization and the forward pass
succeed, when the batch holds the one input text and the model's hidden
width equals the configured `embedding_size` (the spec's configuration
invariant: the dimensionality "must match the model's true output width"),
`__call__` returns output of exactly `embedding_size` scalars for both
representations, with no diagnostics — never a partial vector. -/
theorem encode_success_length (self : EmbeddingModelSingleton τ α)
    (input_text : String) (to_list : Bool) (tok : τ) (result : ModelOutput α)
    (first : List α) (rest : List (List α))
    (htok : self.tokenizer input_text self.max_input_length = .ok tok)
    (hfwd : self.model.forward tok = .ok result)
    (hshape : result.last_hidden_state = [first :: rest])
    (hwidth : first.length = self.embedding_size) :
    (self.call input_text to_list).1.size = self.embedding_size ∧
    (self.call input_text to_list).2 = [] := by
  simp only [EmbeddingModelSingleton.call, htok, hfwd, hshape]
  cases to_list <;>
    simp [EncodeOutput.size, firstTokenSlice, cpuDetachNumpy, hwidth]

/-- C2 witness: the toy encoder on "hello" (tokenization and forward pass
succeed) returns 3 = `embedding_size` scalars and no diagnostics. -/
theorem encode_success_length_witness :
    (toyEncoder.call "hello" true).1.size = 3 ∧
    (toyEncoder.call "hello" true).2 = [] := by
  have h := encode_success_length toyEncoder "hello" true (List.range 5)
    toyModelOutput [1, 2, 3] [[4, 5, 6]] (by rfl) (by rfl) (by rfl) (by rfl)
  simpa using h

/-- C3: on success the embedding is the hidden state at token position 0 of
`last_hidden_state` (first-token pooling, not mean- or max-pooling), passed
through `cpuDetachNumpy` (the `.cpu().detach().numpy()` detach-to-host
step): the array output is the batch of first-token vectors and the list
output is that first-token vector itself. -/
theorem encode_first_token_pooling (self : EmbeddingModelSingleton τ α)
    (input_text : String) (tok : τ) (result : ModelOutput α)
    (first : List α) (rest : List (List α))
    (htok : self.tokenizer input_text self.max_input_length = .ok tok)
    (hfwd : self.model.forward tok = .ok result)
    (hshape : result.last_hidden_state = [first :: rest]) :
    (self.call input_text false).1 = .arr (cpuDetachNumpy [first]) ∧
    (self.call input_text true).1 = .list first := by
  simp only [EmbeddingModelSingleton.call, htok, hfwd, hshape]
  simp [firstTokenSlice, cpuDetachNumpy]

/-- C3 witness: on "hello" the toy model's last hidden state is
`[[[1,2,3],[4,5,6]]]`; the embedding is the first token's vector
`[1,2,3]`. -/
theorem encode_first_token_pooling_witness :
    (toyEncoder.call "hello" false).1 = .arr [[1, 2, 3]] ∧
    (toyEncoder.call "hello" true).1 = .list [1, 2, 3] := by
  have h := encode_first_token_pooling toyEncoder "hello" (List.range 5)
    toyModelOutput [1, 2, 3] [[4, 5, 6]] (by rfl) (by rfl) (by rfl)
  simpa [cpuDetachNumpy] using h

/-- C4: for both singleton types, a second construction request with a
different configuration returns the first instance unchanged — the first
construction's `model_id`, `embedding_size`, `max_input_length` and
`device` are preserved and the second configuration is discarded.
(Singleton lifecycle modelled from the spec: `SingletonMeta` is in
`src/base`, outside `src/`.) -/
theorem singleton_config_frozen (hub : HFHub τ α)
    (load : String → String → Except String β)
    (cfg1 cfg2 : EmbeddingConfig) (scfg1 scfg2 : ScorerConfig) :
    (let first := singletonCall (embeddingConstruct hub) none cfg1
     let second := singletonCall (embeddingConstruct hub) first.2 cfg2
     second.1 = first.1 ∧
     second.1.model_id = cfg1.model_id ∧
     second.1.embedding_size = cfg1.embedding_size ∧
     second.1.max_input_length = cfg1.max_input_length ∧
     second.1.device = cfg1.device) ∧
    (let sfirst := singletonCall (scorerConstruct load) none scfg1
     let ssecond := singletonCall (scorerConstruct load) sfirst.2 scfg2
     ssecond.1 = sfirst.1 ∧
     ssecond.1.model_id = scfg1.model_id ∧
     ssecond.1.device = scfg1.device) :=
  ⟨⟨rfl, rfl, rfl, rfl, rfl⟩, ⟨rfl, rfl, rfl⟩⟩

/-- C5: for every input text, the `to_list=True` and `to_list=False`
results of `__call__` carry exactly the same flat numeric content, on the
success path and on every handled-failure path alike. -/
theorem encode_representation_equivalence
    (self : EmbeddingModelSingleton τ α) (input_text : String) :
    ((self.call input_text true).1).content =
      ((self.call input_text false).1).content := by
  cases htok : self.tokenizer input_text self.max_input_length with
  | error exc => simp [EmbeddingModelSingleton.call, htok, EncodeOutput.content]
  | ok tok =>
    cases hfwd : self.model.forward tok with
    | error exc =>
      simp [EmbeddingModelSingleton.call, htok, hfwd, EncodeOutput.content]
    | ok result =>
      simp [EmbeddingModelSingleton.call, htok, hfwd, EncodeOutput.content]

/-- C8: `__call__` assigns to no attribute of the instance: the
state-threading view returns the instance unchanged, and a repeated call on
the post-call instance with the same text and flag returns the identical
output (the embedding's backend components are deterministic functions). -/
theorem encode_deterministic_no_mutation
    (self : EmbeddingModelSingleton τ α) (input_text : String)
    (to_list : Bool) :
    (self.callS input_text to_list).2 = self ∧
    ((self.callS input_text to_list).2.callS input_text to_list).1 =
      (self.callS input_text to_list).1 :=
  ⟨rfl, rfl⟩

/-- Helper: a successful `predict` yields one score per pair, in input
order, each produced by the underlying pairwise computation. -/
theorem CrossEncoder.predict_ok_spec (m : CrossEncoder β) :
    ∀ (pairs : List (String × String)) (scores : List β),
      m.predict pairs = .ok scores →
      scores.length = pairs.length ∧
      ∀ i (hi : i < pairs.length) (hs : i < scores.length),
        m.scorePair (pairs.get ⟨i, hi⟩).1 (pairs.get ⟨i, hi⟩).2 =
          .ok (scores.get ⟨i, hs⟩)
  | [], scores, h => by
    simp [CrossEncoder.predict] at h
    subst h
    exact ⟨rfl, fun i hi => by simp at hi⟩
  | p :: ps, scores, h => by
    cases h1 : m.scorePair p.1 p.2 with
    | error e => simp [CrossEncoder.predict, h1, Bind.bind, Except.bind] at h
    | ok s =>
      cases h2 : m.predict ps with
      | error e =>
        simp [CrossEncoder.predict, h1, h2, Bind.bind, Except.bind] at h
      | ok rest =>
        simp only [CrossEncoder.predict, h1, h2, Bind.bind, Except.bind,
          pure, Except.pure, Except.ok.injEq] at h
        obtain ⟨hlen, hidx⟩ := CrossEncoder.predict_ok_spec m ps rest h2
        subst h
        refine ⟨by simp [hlen], ?_⟩
        intro i hi hs
        cases i with
        | zero => simpa using h1
        | succ j =>
          exact hidx j (Nat.lt_of_succ_lt_succ (by simpa using hi))
            (Nat.lt_of_succ_lt_succ (by simpa using hs))

/-- C6: whenever `__call__` returns a score list, its length equals the
number of input pairs and the score at position i is the pairwise model's
score for the pair at position i (same order as input). -/
theorem score_length_order (self : CrossEncoderModelSingleton β)
    (pairs : List (String × String)) (scores : List β)
    (h : self.call pairs = .ok scores) :
    scores.length = pairs.length ∧
    ∀ i (hi : i < pairs.length) (hs : i < scores.length),
      self.model.scorePair (pairs.get ⟨i, hi⟩).1 (pairs.get ⟨i, hi⟩).2 =
        .ok (scores.get ⟨i, hs⟩) := by
  have hp : self.model.predict pairs = .ok scores := by
    cases hq : self.model.predict pairs with
    | error e => simp [CrossEncoderModelSingleton.call, hq] at h
    | ok s =>
      simp [CrossEncoderModelSingleton.call, hq, scoresToList] at h
      subst h; rfl
  exact CrossEncoder.predict_ok_spec self.model pairs scores hp

/-- C6 witness: the toy scorer on two concrete pairs returns exactly two
scores, in input order. -/
theorem score_length_order_witness :
    toyScorer.call [("query", "doc"), ("ab", "x")] = .ok [2, 1] ∧
    ([(2 : Int), 1].length = [("query", "doc"), ("ab", "x")].length) := by
  refine ⟨by rfl, ?_⟩
  exact (score_length_order toyScorer [("query", "doc"), ("ab", "x")]
    [2, 1] (by rfl)).1

/-- C7: `__call__` of the scorer has no failure-isolation layer: when the
underlying `predict` raises, the same exception is the result of the whole
call (it propagates to the caller instead of being converted to an empty
result). -/
theorem score_failure_propagates (self : CrossEncoderModelSingleton β)
    (pairs : List (String × String)) (exc : String)
    (h : self.model.predict pairs = .error exc) :
    self.call pairs = .error exc := by
  simp [CrossEncoderModelSingleton.call, h]

/-- C7 witness: the toy pairwise model raises on the pair ("boom", "x");
the exception comes back out of the call. -/
theorem score_failure_propagates_witness :
    toyScorer.call [("boom", "x")] = .error "ScoringException" :=
  score_failure_propagates toyScorer [("boom", "x")] "ScoringException"
    (by rfl)

/-- A hub whose tokenizer loader records which cache location it was given
(inside the error text of the loaded tokenizer), distinguishing the default
location from an explicit one. -/
def cacheProbeHub : HFHub Unit Int where
  autoTokenizerFromPretrained := fun _ cache => fun _ _ =>
    .error (cache.getD "default-location")
  autoModelFromPretrained := fun _ _ =>
    { device := "meta", training := true, forward := fun _ => .ok ⟨[]⟩ }

/-- C9 counterexample: constructing with `cache_dir = some "local-cache"`
does NOT load the tokenizer from that cache location — `__init__` calls
`AutoTokenizer.from_pretrained(model_id)` with no cache argument, so the
tokenizer comes from the default location; the claim that both the
tokenizer and the model artifacts are loaded from the given cache location
fails on this concrete hub. -/
theorem encoder_init_cache_counterexample :
    ¬ ((EmbeddingModelSingleton.init cacheProbeHub "model-a" 768 384 "cpu"
          (some "local-cache")).tokenizer =
        cacheProbeHub.autoTokenizerFromPretrained "model-a"
          (some "local-cache") ∧
       (EmbeddingModelSingleton.init cacheProbeHub "model-a" 768 384 "cpu"
          (some "local-cache")).model =
        ((cacheProbeHub.autoModelFromPretrained "model-a"
          (some "local-cache")).to "cpu").eval) := by
  intro h
  have h2 := congrFun (congrFun h.1 "text") 0
  simp only [EmbeddingModelSingleton.init, cacheProbeHub, Option.getD] at h2
  exact absurd (Except.error.inj h2) (by decide)

/-- C9 (amended): construction loads the tokenizer for the configured model
identifier from the DEFAULT cache location (no cache argument is passed to
the tokenizer loader), loads the model artifacts for that identifier from
the given cache location when one is provided (else the default), moves the
model onto the configured compute device, and switches it into inference
(non-training) mode. -/
theorem encoder_init_contract (hub : HFHub τ α) (model_id : String)
    (embedding_size max_input_length : Nat) (device : String)
    (cache_dir : Option String) :
    (EmbeddingModelSingleton.init hub model_id embedding_size
        max_input_length device cache_dir).tokenizer =
      hub.autoTokenizerFromPretrained model_id none ∧
    (EmbeddingModelSingleton.init hub model_id embedding_size
        max_input_length device cache_dir).model.forward =
      (hub.autoModelFromPretrained model_id cache_dir).forward ∧
    (EmbeddingModelSingleton.init hub model_id embedding_size
        max_input_length device cache_dir).model.device = device ∧
    (EmbeddingModelSingleton.init hub model_id embedding_size
        max_input_length device cache_dir).model.training = false :=
  ⟨rfl, rfl, rfl, rfl⟩

/-- C10: the configured `embedding_size` is stored and exposed but plays no
role in `__call__`: replacing it changes nothing about the call's result,
and on the success path the output's length is the loaded model's
first-token hidden width, with no diagnostic emitted — so a mismatched
configuration yields vectors of the model's width, not `embedding_size`,
silently. -/
theorem embedding_size_unused (self : EmbeddingModelSingleton τ α) (n : Nat)
    (input_text : String) (to_list : Bool) (tok : τ)
    (result : ModelOutput α) (first : List α) (rest : List (List α)) :
    ({ self with embedding_size := n } :
        EmbeddingModelSingleton τ α).embedding_size = n ∧
    ({ self with embedding_size := n } :
        EmbeddingModelSingleton τ α).call input_text to_list =
      self.call input_text to_list ∧
    (self.tokenizer input_text self.max_input_length = .ok tok →
     self.model.forward tok = .ok result →
     result.last_hidden_state = [first :: rest] →
     (self.call input_text true).1.size = first.length ∧
     (self.call input_text true).2 = []) := by
  refine ⟨rfl, rfl, ?_⟩
  intro htok hfwd hshape
  simp only [EmbeddingModelSingleton.call, htok, hfwd, hshape]
  simp [EncodeOutput.size, firstTokenSlice, cpuDetachNumpy]

/-- C10 witness: an encoder configured with `embedding_size = 5` over the
toy model of hidden width 3 returns a 3-element vector and no diagnostic on
"hello". -/
theorem embedding_size_unused_witness :
    mismatchEncoder.embedding_size = 5 ∧
    (mismatchEncoder.call "hello" true).1.size = 3 ∧
    (mismatchEncoder.call "hello" true).2 = [] := by
  have h := (embedding_size_unused mismatchEncoder 5 "hello" true
    (List.range 5) toyModelOutput [1, 2, 3] [[4, 5, 6]]).2.2
    (by rfl) (by rfl) (by rfl)
  exact ⟨rfl, by simpa using h.1, h.2⟩
